import Mathlib

/-!
Verification of openstack-port-cni: the client/daemon port-lifecycle core.

Shallow embedding of the openstack-port CNI plugin: the shared wire types
(`internal/api`), the daemon's HTTP handlers (`cmd/openstack-port-daemon`),
the peer-credential listener, the thin client's CNI commands
(`cmd/openstack-port-cni`), and the legacy single-binary plugin (`main.go`).

Remote collaborators (the Neutron control-plane, the delegate plugin, JSON
marshalling of opaque documents) are modelled as explicit outcome
parameters: each handler/command is a pure function of its request and of
the outcomes the collaborators return, mirroring the Go control flow
statement by statement.
-/

namespace OpenStackPort

/-! Wire types (`internal/api/types.go`). -/

/-- Wire type `api.AddRequest`: sent by the thin CNI to create a Neutron port. -/
structure AddRequest where
  containerID : String
  networkID : String
  subnetID : String
deriving DecidableEq, Repr

/-- Wire type `api.AddResponse`: Neutron port details needed for OVS delegation. -/
structure AddResponse where
  portID : String
  macAddress : String
  ipAddress : String
  prefixLength : String
  gatewayIP : String
deriving DecidableEq, Repr

/-- Wire type `api.DelRequest`: sent by the thin CNI to delete a Neutron port. -/
structure DelRequest where
  containerID : String
  networkID : String
deriving DecidableEq, Repr

/-- Wire type `api.DelResponse`: acknowledges a delete operation. -/
structure DelResponse where
  ok : Bool
deriving DecidableEq, Repr

/-- Wire type `api.CheckRequest`: sent by the thin CNI to verify a Neutron port exists. -/
structure CheckRequest where
  containerID : String
  networkID : String
deriving DecidableEq, Repr

/-- Wire type `api.CheckResponse`: reports whether the Neutron port exists. -/
structure CheckResponse where
  exists_ : Bool
deriving DecidableEq, Repr

/-- Wire type `api.ErrorResponse`: returned when the daemon encounters an error. -/
structure ErrorResponse where
  error : String
deriving DecidableEq, Repr

/-! The JSON wire model.

A JSON object is a list of key/value pairs; every field of the envelope
types is a string except the two booleans, so two value shapes suffice.
Encoding follows the Go struct tags (fixed lower-snake-case keys);
decoding looks fields up by key, as `encoding/json` does. -/

/-- A JSON value as used by the wire envelopes: string or boolean. -/
inductive JValue where
  | str (s : String)
  | bool (b : Bool)
deriving DecidableEq, Repr

/-- A JSON object: association list of field name to value. -/
abbrev JObject := List (String × JValue)

/-- Look a string field up by key. -/
def jStr (o : JObject) (k : String) : Option String :=
  match o.lookup k with
  | some (.str s) => some s
  | _ => none

/-- Look a boolean field up by key. -/
def jBool (o : JObject) (k : String) : Option Bool :=
  match o.lookup k with
  | some (.bool b) => some b
  | _ => none

def encodeAddRequest (r : AddRequest) : JObject :=
  [("container_id", .str r.containerID), ("network_id", .str r.networkID),
   ("subnet_id", .str r.subnetID)]

def decodeAddRequest (o : JObject) : Option AddRequest :=
  match jStr o "container_id", jStr o "network_id", jStr o "subnet_id" with
  | some c, some n, some s => some ⟨c, n, s⟩
  | _, _, _ => none

def encodeAddResponse (r : AddResponse) : JObject :=
  [("port_id", .str r.portID), ("mac_address", .str r.macAddress),
   ("ip_address", .str r.ipAddress), ("prefix_length", .str r.prefixLength),
   ("gateway_ip", .str r.gatewayIP)]

def decodeAddResponse (o : JObject) : Option AddResponse :=
  match jStr o "port_id", jStr o "mac_address", jStr o "ip_address",
        jStr o "prefix_length", jStr o "gateway_ip" with
  | some p, some m, some i, some l, some g => some ⟨p, m, i, l, g⟩
  | _, _, _, _, _ => none

def encodeDelRequest (r : DelRequest) : JObject :=
  [("container_id", .str r.containerID), ("network_id", .str r.networkID)]

def decodeDelRequest (o : JObject) : Option DelRequest :=
  match jStr o "container_id", jStr o "network_id" with
  | some c, some n => some ⟨c, n⟩
  | _, _ => none

def encodeDelResponse (r : DelResponse) : JObject :=
  [("ok", .bool r.ok)]

def decodeDelResponse (o : JObject) : Option DelResponse :=
  match jBool o "ok" with
  | some b => some ⟨b⟩
  | _ => none

def encodeCheckRequest (r : CheckRequest) : JObject :=
  [("container_id", .str r.containerID), ("network_id", .str r.networkID)]

def decodeCheckRequest (o : JObject) : Option CheckRequest :=
  match jStr o "container_id", jStr o "network_id" with
  | some c, some n => some ⟨c, n⟩
  | _, _ => none

def encodeCheckResponse (r : CheckResponse) : JObject :=
  [("exists", .bool r.exists_)]

def decodeCheckResponse (o : JObject) : Option CheckResponse :=
  match jBool o "exists" with
  | some b => some ⟨b⟩
  | _ => none

def encodeErrorResponse (r : ErrorResponse) : JObject :=
  [("error", .str r.error)]

def decodeErrorResponse (o : JObject) : Option ErrorResponse :=
  match jStr o "error" with
  | some e => some ⟨e⟩
  | _ => none

/-! Port-name derivation. -/

/-- Function `portName` from the daemon (`cmd/openstack-port-daemon/main.go`):
deterministic Neutron port name for a container. The identity is
truncated to its first 12 characters only when longer than 12. -/
def portName (containerID : String) : String :=
  let id := if containerID.length > 12 then ⟨containerID.toList.take 12⟩ else containerID
  "k8s-pod-" ++ id

/-- Go string slicing `s[:high]`: yields the prefix when `high ≤ len(s)`,
and panics (modelled as `none`) when `high > len(s)`. -/
def goSliceTo (s : String) (high : Nat) : Option String :=
  if high ≤ s.length then some ⟨s.toList.take high⟩ else none

/-- Port-name derivation in the legacy single-binary plugin (`main.go`):
`fmt.Sprintf("k8s-pod-%s", args.ContainerID[:12])`, with no length guard. -/
def legacyPortName (containerID : String) : Option String :=
  (goSliceTo containerID 12).map (fun p => "k8s-pod-" ++ p)

/-! Neutron control-plane data (gophercloud `ports` / `subnets`). -/

/-- One fixed-IP entry of a Neutron port (`ports.IP`). -/
structure FixedIP where
  subnetID : String
  ipAddress : String
deriving DecidableEq, Repr

/-- A Neutron port record, as the daemon reads it (`ports.Port`). -/
structure Port where
  id : String
  name : String
  networkID : String
  macAddress : String
  fixedIPs : List FixedIP
deriving DecidableEq, Repr

/-- A Neutron subnet record (`subnets.Subnet`): CIDR and gateway. -/
structure Subnet where
  id : String
  cidr : String
  gatewayIP : String
deriving DecidableEq, Repr

/-- Options `ports.CreateOpts` as assembled by the /add handler. -/
structure CreateOpts where
  name : String
  networkID : String
  fixedIPs : List FixedIP
deriving DecidableEq, Repr

/-- Options `ports.ListOpts` as assembled by the /del and /check handlers. -/
structure ListOpts where
  name : String
  networkID : String
deriving DecidableEq, Repr

/-- Outcome of `ports.Delete(...).ExtractErr()`: success, a 404
(`gophercloud.ErrDefault404`), or any other failure. -/
inductive DeleteOutcome where
  | ok
  | notFound404
  | failed (msg : String)
deriving DecidableEq, Repr

/-- The Neutron client as the handlers use it: each call's response is a
function of its arguments. The daemon holds no other state; every handler
re-queries the control-plane through this interface. -/
structure NeutronClient where
  createPort : CreateOpts → Except String Port
  getSubnet : String → Except String Subnet
  listPorts : ListOpts → Except String (List Port)
  deletePort : String → DeleteOutcome

/-! Daemon HTTP handlers (`newHandler`).

Each handler is modelled from the decoded request onward (transport and
body-decoding branches are part of the HTTP plumbing, not of the lifecycle
logic under study). The output records the JSON reply and, in order, the
port IDs the handler passed to `ports.Delete`. -/

/-- The body of a daemon HTTP reply. -/
inductive HttpBody where
  | addResp (r : AddResponse)
  | delResp (r : DelResponse)
  | checkResp (r : CheckResponse)
  | errResp (r : ErrorResponse)
deriving DecidableEq, Repr

/-- A daemon HTTP reply: status code and JSON body. -/
structure HttpReply where
  status : Nat
  body : HttpBody
deriving DecidableEq, Repr

/-- A handler's observable outcome: the reply written to the client and
the trace of `ports.Delete` calls it issued. -/
structure HandlerOut where
  reply : HttpReply
  deleteCalls : List String
deriving DecidableEq, Repr

/-- The /add handler's IP-selection loop: first fixed-IP entry whose
subnet matches the requested subnet; `""` when none matches. -/
def firstMatchingIP (fixedIPs : List FixedIP) (subnetID : String) : String :=
  match fixedIPs with
  | [] => ""
  | ip :: rest =>
    if ip.subnetID = subnetID then ip.ipAddress else firstMatchingIP rest subnetID

/-- The /add handler's CIDR split: `strings.SplitN(cidr, "/", 2)` yields
two parts exactly when the CIDR contains a slash; the prefix length is
then everything after the first slash, else `""`. -/
def afterChar (c : Char) : List Char → Option (List Char)
  | [] => none
  | x :: xs => if x = c then some xs else afterChar c xs

/-- Prefix length extracted from a CIDR by the /add handler. -/
def prefixLengthOf (cidr : String) : String :=
  match afterChar '/' cidr.toList with
  | some rest => ⟨rest⟩
  | none => ""

/-- The /add handler: validate, create the port, fetch the subnet
(deleting the just-created port when that fetch fails), and assemble the
`AddResponse`. -/
def handleAdd (client : NeutronClient) (req : AddRequest) : HandlerOut :=
  if req.containerID = "" ∨ req.networkID = "" ∨ req.subnetID = "" then
    ⟨⟨400, .errResp ⟨"container_id, network_id, and subnet_id are required"⟩⟩, []⟩
  else
    let name := portName req.containerID
    match client.createPort ⟨name, req.networkID, [⟨req.subnetID, ""⟩]⟩ with
    | .error e => ⟨⟨500, .errResp ⟨"failed to create port: " ++ e⟩⟩, []⟩
    | .ok port =>
      match client.getSubnet req.subnetID with
      | .error e =>
        ⟨⟨500, .errResp ⟨"failed to get subnet: " ++ e⟩⟩, [port.id]⟩
      | .ok subnet =>
        ⟨⟨200, .addResp ⟨port.id, port.macAddress,
            firstMatchingIP port.fixedIPs req.subnetID,
            prefixLengthOf subnet.cidr, subnet.gatewayIP⟩⟩, []⟩

/-- The /del handler's delete loop: delete each listed port in order;
a 404 is folded into success and the loop continues; any other failure
aborts the loop. Returns the delete calls made and the aborting error,
if any. -/
def delLoop (client : NeutronClient) : List Port → List String × Option String
  | [] => ([], none)
  | p :: rest =>
    match client.deletePort p.id with
    | .failed e => ([p.id], some ("failed to delete port " ++ p.id ++ ": " ++ e))
    | _ =>
      let out := delLoop client rest
      (p.id :: out.1, out.2)

/-- The /del handler: validate, list ports by derived name and network,
delete every match, report `{ok:true}` unless a non-404 delete failure
aborted the loop. -/
def handleDel (client : NeutronClient) (req : DelRequest) : HandlerOut :=
  if req.containerID = "" ∨ req.networkID = "" then
    ⟨⟨400, .errResp ⟨"container_id and network_id are required"⟩⟩, []⟩
  else
    let name := portName req.containerID
    match client.listPorts ⟨name, req.networkID⟩ with
    | .error e => ⟨⟨500, .errResp ⟨"failed to list ports: " ++ e⟩⟩, []⟩
    | .ok allPorts =>
      let out := delLoop client allPorts
      match out.2 with
      | some msg => ⟨⟨500, .errResp ⟨msg⟩⟩, out.1⟩
      | none => ⟨⟨200, .delResp ⟨true⟩⟩, out.1⟩

/-- The /check handler: validate, list ports by derived name and network,
report existence as "the list returned at least one match". -/
def handleCheck (client : NeutronClient) (req : CheckRequest) : HandlerOut :=
  if req.containerID = "" ∨ req.networkID = "" then
    ⟨⟨400, .errResp ⟨"container_id and network_id are required"⟩⟩, []⟩
  else
    let name := portName req.containerID
    match client.listPorts ⟨name, req.networkID⟩ with
    | .error e => ⟨⟨500, .errResp ⟨"failed to list ports: " ++ e⟩⟩, []⟩
    | .ok allPorts => ⟨⟨200, .checkResp ⟨decide (0 < allPorts.length)⟩⟩, []⟩

/-! A concrete control-plane state.

Instantiates `NeutronClient` with a functional Neutron state: listing
filters the stored ports by name and network (the `ListOpts` filter),
and deleting an absent port reports a 404. Used to state the claims that
talk about the ports that exist after an operation. -/

/-- The control-plane's port store. -/
structure CPState where
  ports : List Port
deriving DecidableEq, Repr

/-- The Neutron `ListOpts` name+network filter. -/
def matchesOpts (opts : ListOpts) (p : Port) : Bool :=
  p.name == opts.name && p.networkID == opts.networkID

/-- A `NeutronClient` backed by a port store `s`. Creation and subnet
responses are supplied by `mk` and `sub` (the daemon never reads them
back from the store). -/
def stateClient (s : CPState) (mk : CreateOpts → Except String Port)
    (sub : String → Except String Subnet) : NeutronClient where
  createPort := mk
  getSubnet := sub
  listPorts := fun opts => .ok (s.ports.filter (matchesOpts opts))
  deletePort := fun pid => if s.ports.any (fun p => p.id == pid) then .ok else .notFound404

/-- Effect of a sequence of `ports.Delete` calls on the port store. -/
def removeIds (ids : List String) (ps : List Port) : List Port :=
  ps.filter (fun p => !(ids.contains p.id))

/-- One /del round trip against a stored control-plane state: run the
handler against the state-backed client, then apply its delete calls to
the store. -/
def runDel (s : CPState) (mk : CreateOpts → Except String Port)
    (sub : String → Except String Subnet) (req : DelRequest) : CPState × HandlerOut :=
  let out := handleDel (stateClient s mk sub) req
  (⟨removeIds out.deleteCalls s.ports⟩, out)

/-! Peer-credential listener (`peerCredListener.Accept`). -/

/-- The peer credential returned by `SO_PEERCRED` (`unix.Ucred`); only
the UID is consulted. -/
structure Ucred where
  uid : Nat
deriving DecidableEq, Repr

/-- Outcomes of the system calls `Accept` performs, in program order:
the underlying `AcceptUnix`, `conn.SyscallConn`, `raw.Control`, and
`GetsockoptUcred`. -/
structure AcceptEnv where
  acceptUnix : Except String Unit
  syscallConn : Except String Unit
  rawControl : Except String Unit
  peerCred : Except String Ucred

/-- Observable outcome of `Accept`: whether a connection was handed to
the HTTP server, whether the accepted connection was closed instead, and
the error message surfaced to the caller (`""` on acceptance). -/
structure AcceptResult where
  accepted : Bool
  connClosed : Bool
  errMsg : String
deriving DecidableEq, Repr

/-- Method `peerCredListener.Accept`: accept the raw connection, resolve the
peer credential, and hand the connection over only for a root (UID 0)
peer; every other path closes the connection and returns an error. -/
def pcAccept (env : AcceptEnv) : AcceptResult :=
  match env.acceptUnix with
  | .error e => ⟨false, false, e⟩
  | .ok _ =>
    match env.syscallConn with
    | .error e => ⟨false, true, "failed to get raw conn: " ++ e⟩
    | .ok _ =>
      match env.rawControl with
      | .error e => ⟨false, true, "raw control: " ++ e⟩
      | .ok _ =>
        match env.peerCred with
        | .error e => ⟨false, true, "getsockopt peercred: " ++ e⟩
        | .ok cred =>
          if cred.uid ≠ 0 then
            ⟨false, true, "rejected non-root peer uid=" ++ toString cred.uid⟩
          else ⟨true, false, ""⟩

/-! Thin-client commands (`cmd/openstack-port-cni/main.go`).

Each command is a pure function of the container identity and of the
outcomes of its collaborators (config parse, daemon round trips, JSON
marshalling of the opaque delegate document, delegate invocation), which
is exactly the information the Go control flow branches on. The output
records the `/del` requests the command issued to the daemon. -/

/-- Config `PluginConf`: the fields of the stdin document this plugin reads. -/
structure PluginConf where
  networkID : String
  subnetID : String
  delegatePlugin : String
  socketPath : String
deriving DecidableEq, Repr

/-- Collaborator outcomes consumed by `cmdAdd`, in program order. -/
structure CmdAddEnv where
  parseConf : Except String PluginConf
  daemonAdd : AddRequest → Except String AddResponse
  marshalNetConf : Except String Unit
  unmarshalNetConf : Except String Unit
  marshalFinal : Except String Unit
  delegateAdd : Except String Unit

/-- A client command's observable outcome: its returned error (`.ok` for
success) and the `/del` requests it sent to the daemon. -/
structure CmdOut where
  result : Except String Unit
  delCalls : List DelRequest
deriving Repr

/-- True exactly when an `Except` is an error. -/
def exErr {ε α : Type} : Except ε α → Bool
  | .error _ => true
  | .ok _ => false

/-- Command `cmdAdd`: parse the config, call the daemon's /add, assemble the
delegate document (marshal NetConf, unmarshal to a map, marshal the
final config), and invoke the delegate; each failure after the daemon
call first sends /del for the same container and network. -/
def cmdAdd (env : CmdAddEnv) (containerID : String) : CmdOut :=
  match env.parseConf with
  | .error e => ⟨.error ("failed to parse network config: " ++ e), []⟩
  | .ok conf =>
    match env.daemonAdd ⟨containerID, conf.networkID, conf.subnetID⟩ with
    | .error e => ⟨.error e, []⟩
    | .ok _ =>
      let delReq : DelRequest := ⟨containerID, conf.networkID⟩
      match env.marshalNetConf with
      | .error e => ⟨.error ("failed to marshal NetConf: " ++ e), [delReq]⟩
      | .ok _ =>
        match env.unmarshalNetConf with
        | .error e => ⟨.error ("failed to unmarshal NetConf to map: " ++ e), [delReq]⟩
        | .ok _ =>
          match env.marshalFinal with
          | .error e => ⟨.error ("failed to marshal final config: " ++ e), [delReq]⟩
          | .ok _ =>
            match env.delegateAdd with
            | .error e =>
              ⟨.error ("failed to delegate to " ++ conf.delegatePlugin ++ ": " ++ e), [delReq]⟩
            | .ok _ => ⟨.ok (), []⟩

/-- Collaborator outcomes consumed by `cmdDel`, in program order. -/
structure CmdDelEnv where
  parseConf : Except String PluginConf
  marshalNetConf : Except String Unit
  delegateDel : Except String Unit
  daemonDel : DelRequest → Except String DelResponse

/-- Observable outcome of `cmdDel`: the returned error (`.ok` = success),
whether the delegate teardown was invoked, the `/del` requests sent to
the daemon, and the warnings printed to stderr. -/
structure DelCmdOut where
  result : Except String Unit
  delegateAttempted : Bool
  daemonDelCalls : List DelRequest
  warnings : List String
deriving Repr

/-- Command `cmdDel`: swallow parse and marshal failures (returning success),
invoke the delegate teardown (downgrading its failure to a warning),
then always attempt the daemon's /del, whose outcome is discarded. -/
def cmdDel (env : CmdDelEnv) (containerID : String) : DelCmdOut :=
  match env.parseConf with
  | .error _ => ⟨.ok (), false, [], []⟩
  | .ok conf =>
    match env.marshalNetConf with
    | .error _ => ⟨.ok (), false, [], []⟩
    | .ok _ =>
      let warns := match env.delegateDel with
        | .error e => ["warning: local OVS delegate delete failed: " ++ e]
        | .ok _ => []
      let delReq : DelRequest := ⟨containerID, conf.networkID⟩
      ⟨.ok (), true, [delReq], warns⟩

/-- Collaborator outcomes consumed by `cmdCheck`, in program order. -/
structure CmdCheckEnv where
  parseConf : Except String PluginConf
  daemonCheck : CheckRequest → Except String CheckResponse
  marshalNetConf : Except String Unit
  unmarshalNetConf : Except String Unit
  marshalFinal : Except String Unit
  delegateCheck : Except String Unit

/-- Command `cmdCheck`: parse the config, call the daemon's /check, fail with a
"not found" error when the daemon reports the port absent, otherwise
re-assemble the config document and delegate the check. -/
def cmdCheck (env : CmdCheckEnv) (containerID : String) : Except String Unit :=
  match env.parseConf with
  | .error e => .error ("failed to parse network config: " ++ e)
  | .ok conf =>
    match env.daemonCheck ⟨containerID, conf.networkID⟩ with
    | .error e => .error e
    | .ok resp =>
      if !resp.exists_ then .error "neutron port not found"
      else
        match env.marshalNetConf with
        | .error e => .error ("failed to marshal NetConf: " ++ e)
        | .ok _ =>
          match env.unmarshalNetConf with
          | .error e => .error ("failed to unmarshal NetConf to map: " ++ e)
          | .ok _ =>
            match env.marshalFinal with
            | .error e => .error ("failed to marshal config: " ++ e)
            | .ok _ => env.delegateCheck

/-! Concrete fixtures used by the witness theorems below: a port, a
subnet, the standard end-to-end requests, and collaborator
instantiations exhibiting the failure modes under study. -/

/-- A concrete Neutron port for the end-to-end scenarios. -/
def wPort : Port :=
  ⟨"p1", portName "abcdef1234567890", "net-1", "fa:16:3e:aa:bb:cc", [⟨"sub-1", "10.0.0.5"⟩]⟩

/-- A concrete Neutron subnet for the end-to-end scenarios. -/
def wSubnet : Subnet := ⟨"sub-1", "10.0.0.0/24", "10.0.0.1"⟩

def wAddReq : AddRequest := ⟨"abcdef1234567890", "net-1", "sub-1"⟩

def wDelReq : DelRequest := ⟨"abcdef1234567890", "net-1"⟩

def wCheckReq : CheckRequest := ⟨"abcdef1234567890", "net-1"⟩

/-- A control-plane where port creation succeeds but the subnet fetch fails. -/
def wClientSubnetFail : NeutronClient where
  createPort := fun _ => .ok wPort
  getSubnet := fun _ => .error "boom"
  listPorts := fun _ => .ok []
  deletePort := fun _ => .ok

/-- A fully healthy control-plane. -/
def wClientOk : NeutronClient where
  createPort := fun _ => .ok wPort
  getSubnet := fun _ => .ok wSubnet
  listPorts := fun _ => .ok []
  deletePort := fun _ => .ok

/-- A control-plane that lists zero matching ports. -/
def wClientEmpty : NeutronClient where
  createPort := fun _ => .error "unused"
  getSubnet := fun _ => .error "unused"
  listPorts := fun _ => .ok []
  deletePort := fun _ => .notFound404

/-- A control-plane that lists one port but 404s on its deletion. -/
def wClient404 : NeutronClient where
  createPort := fun _ => .error "unused"
  getSubnet := fun _ => .error "unused"
  listPorts := fun _ => .ok [wPort]
  deletePort := fun _ => .notFound404

def wState : CPState := ⟨[wPort]⟩

def wMk : CreateOpts → Except String Port := fun _ => .error "unused"

def wSub : String → Except String Subnet := fun _ => .error "unused"

def wConf : PluginConf := ⟨"net-1", "sub-1", "ovs", ""⟩

def wAddResp : AddResponse := ⟨"p1", "fa:16:3e:aa:bb:cc", "10.0.0.5", "24", "10.0.0.1"⟩

/-- A client run where everything up to the delegate succeeds and the
delegate invocation fails. -/
def wCmdAddEnv : CmdAddEnv :=
  ⟨.ok wConf, fun _ => .ok wAddResp, .ok (), .ok (), .ok (), .error "delegate boom"⟩

/-- A teardown run where both the delegate and the daemon call fail. -/
def wCmdDelEnv : CmdDelEnv :=
  ⟨.ok wConf, .ok (), .error "veth teardown failed", fun _ => .error "daemon down"⟩

/-- A verify run where the daemon reports the port absent. -/
def wCmdCheckEnv : CmdCheckEnv :=
  ⟨.ok wConf, fun _ => .ok ⟨false⟩, .ok (), .ok (), .ok (), .ok ()⟩

def wAcceptRoot : AcceptEnv := ⟨.ok (), .ok (), .ok (), .ok ⟨0⟩⟩

def wAcceptNonRoot : AcceptEnv := ⟨.ok (), .ok (), .ok (), .ok ⟨7⟩⟩

/-! Helper lemmas shared by the claim theorems. -/

/-- Listing against the state-backed control-plane returns the ports the
name+network filter matches. -/
theorem stateClient_listPorts (s : CPState) (mk : CreateOpts → Except String Port)
    (sub : String → Except String Subnet) (opts : ListOpts) :
    (stateClient s mk sub).listPorts opts = .ok (s.ports.filter (matchesOpts opts)) := rfl

/-- Deletion against the state-backed control-plane succeeds on present
ports and 404s on absent ones. -/
theorem stateClient_deletePort (s : CPState) (mk : CreateOpts → Except String Port)
    (sub : String → Except String Subnet) (pid : String) :
    (stateClient s mk sub).deletePort pid =
      if s.ports.any (fun p => p.id == pid) then .ok else .notFound404 := rfl

/-- Against a state-backed control-plane, the /del loop deletes every
listed port (each is present, so no 404 and no failure occurs). -/
theorem delLoop_stateClient (s : CPState) (mk : CreateOpts → Except String Port)
    (sub : String → Except String Subnet) (l : List Port)
    (h : ∀ p ∈ l, p ∈ s.ports) :
    delLoop (stateClient s mk sub) l = (l.map Port.id, none) := by
  induction l with
  | nil => rfl
  | cons p rest ih =>
    have hp : p ∈ s.ports := h p (List.mem_cons_self _ _)
    have hany : s.ports.any (fun q => q.id == p.id) = true :=
      List.any_eq_true.mpr ⟨p, hp, by simp⟩
    have hdel : (stateClient s mk sub).deletePort p.id = .ok := by
      rw [stateClient_deletePort, if_pos hany]
    have hrest := ih (fun q hq => h q (List.mem_cons_of_mem _ hq))
    simp only [delLoop, hdel, hrest, List.map_cons]

/-- Removing every port the name+network filter matched leaves a store
in which that filter matches nothing. -/
theorem filter_removeIds_matching (opts : ListOpts) (ps : List Port) :
    (removeIds ((ps.filter (matchesOpts opts)).map Port.id) ps).filter (matchesOpts opts)
      = [] := by
  rw [List.filter_eq_nil_iff]
  intro p hp hmat
  rw [removeIds, List.mem_filter] at hp
  obtain ⟨hmem, hnc⟩ := hp
  have hin : p.id ∈ (ps.filter (matchesOpts opts)).map Port.id :=
    List.mem_map.mpr ⟨p, List.mem_filter.mpr ⟨hmem, hmat⟩, rfl⟩
  simp [hin] at hnc

/-- One /del round trip against a state-backed control-plane always
replies `{ok:true}` and leaves no port matching the lifecycle key. -/
theorem runDel_spec (s : CPState) (mk : CreateOpts → Except String Port)
    (sub : String → Except String Subnet) (req : DelRequest)
    (hc : req.containerID ≠ "") (hn : req.networkID ≠ "") :
    (runDel s mk sub req).2.reply = ⟨200, .delResp ⟨true⟩⟩ ∧
    ((runDel s mk sub req).1.ports.filter
      (matchesOpts ⟨portName req.containerID, req.networkID⟩)) = [] := by
  have hloop := delLoop_stateClient s mk sub
    (s.ports.filter (matchesOpts ⟨portName req.containerID, req.networkID⟩))
    (fun p hp => List.mem_of_mem_filter hp)
  have hval : ¬(req.containerID = "" ∨ req.networkID = "") := by
    rintro (h | h)
    · exact hc h
    · exact hn h
  constructor
  · simp only [runDel, handleDel, if_neg hval, stateClient_listPorts, hloop]
  · simp only [runDel, handleDel, if_neg hval, stateClient_listPorts, hloop]
    exact filter_removeIds_matching _ _

/-- The /add handler's IP-selection loop returns the IP of the first
entry on the requested subnet. -/
theorem firstMatchingIP_of_first (sid : String) (pre : List FixedIP) (m : FixedIP)
    (post : List FixedIP) (hpre : ∀ ip ∈ pre, ip.subnetID ≠ sid) (hm : m.subnetID = sid) :
    firstMatchingIP (pre ++ m :: post) sid = m.ipAddress := by
  induction pre with
  | nil => simp [firstMatchingIP, hm]
  | cons ip rest ih =>
    have hne : ip.subnetID ≠ sid := hpre ip (List.mem_cons_self _ _)
    simpa [firstMatchingIP, hne] using ih (fun j hj => hpre j (List.mem_cons_of_mem _ hj))

/-- The /add handler's IP-selection loop yields `""` when no entry is
on the requested subnet. -/
theorem firstMatchingIP_of_none (sid : String) (l : List FixedIP)
    (h : ∀ ip ∈ l, ip.subnetID ≠ sid) : firstMatchingIP l sid = "" := by
  induction l with
  | nil => rfl
  | cons ip rest ih =>
    have hne : ip.subnetID ≠ sid := h ip (List.mem_cons_self _ _)
    simpa [firstMatchingIP, hne] using ih (fun j hj => h j (List.mem_cons_of_mem _ hj))

/-! Claim theorems. -/

/-- C1: for every attach request where the control-plane port creation
succeeds but the subsequent subnet fetch fails, the daemon deletes the
just-created port before returning the error (its sole delete call names
the created port's ID, and applying its delete calls to any port store
removes every port with that ID), so no port remains reserved when
attach returns the failure. -/
theorem handleAdd_subnet_fail_rolls_back (client : NeutronClient) (req : AddRequest)
    (port : Port) (e : String)
    (hc : req.containerID ≠ "") (hn : req.networkID ≠ "") (hs : req.subnetID ≠ "")
    (hcreate : client.createPort ⟨portName req.containerID, req.networkID,
      [⟨req.subnetID, ""⟩]⟩ = .ok port)
    (hget : client.getSubnet req.subnetID = .error e) :
    handleAdd client req =
      ⟨⟨500, .errResp ⟨"failed to get subnet: " ++ e⟩⟩, [port.id]⟩ ∧
    ∀ ps : List Port, ∀ q ∈ removeIds (handleAdd client req).deleteCalls ps,
      q.id ≠ port.id := by
  have hval : ¬(req.containerID = "" ∨ req.networkID = "" ∨ req.subnetID = "") := by
    rintro (h | h | h)
    · exact hc h
    · exact hn h
    · exact hs h
  have hmain : handleAdd client req =
      ⟨⟨500, .errResp ⟨"failed to get subnet: " ++ e⟩⟩, [port.id]⟩ := by
    simp only [handleAdd, if_neg hval, hcreate, hget]
  refine ⟨hmain, ?_⟩
  intro ps q hq heq
  rw [hmain] at hq
  rw [removeIds, List.mem_filter] at hq
  simp [heq] at hq

/-- C2: for every attach command where the daemon call succeeded, if the
delegate invocation fails or any step of assembling its input document
(marshalling or unmarshalling the configuration) fails, the orchestrator
sends the daemon a detach for the same lifecycle key before returning
the error; processing that detach leaves no port matching the key. -/
theorem cmdAdd_compensates_on_late_failure (env : CmdAddEnv) (cid : String)
    (conf : PluginConf) (resp : AddResponse)
    (hparse : env.parseConf = .ok conf)
    (hadd : env.daemonAdd ⟨cid, conf.networkID, conf.subnetID⟩ = .ok resp)
    (hfail : exErr env.marshalNetConf = true ∨ exErr env.unmarshalNetConf = true ∨
      exErr env.marshalFinal = true ∨ exErr env.delegateAdd = true) :
    exErr (cmdAdd env cid).result = true ∧
    (cmdAdd env cid).delCalls = [⟨cid, conf.networkID⟩] ∧
    (cid ≠ "" → conf.networkID ≠ "" →
      ∀ (s : CPState) (mk : CreateOpts → Except String Port)
        (sub : String → Except String Subnet),
        ((runDel s mk sub ⟨cid, conf.networkID⟩).1.ports.filter
          (matchesOpts ⟨portName cid, conf.networkID⟩)) = []) := by
  have hstate : cid ≠ "" → conf.networkID ≠ "" →
      ∀ (s : CPState) (mk : CreateOpts → Except String Port)
        (sub : String → Except String Subnet),
        ((runDel s mk sub ⟨cid, conf.networkID⟩).1.ports.filter
          (matchesOpts ⟨portName cid, conf.networkID⟩)) = [] := by
    intro hc hn s mk sub
    exact (runDel_spec s mk sub ⟨cid, conf.networkID⟩ hc hn).2
  refine ⟨?_, ?_, hstate⟩ <;>
  · cases hmn : env.marshalNetConf with
    | error e => simp [cmdAdd, hparse, hadd, hmn, exErr]
    | ok u =>
      cases hun : env.unmarshalNetConf with
      | error e => simp [cmdAdd, hparse, hadd, hmn, hun, exErr]
      | ok u2 =>
        cases hmf : env.marshalFinal with
        | error e => simp [cmdAdd, hparse, hadd, hmn, hun, hmf, exErr]
        | ok u3 =>
          cases hda : env.delegateAdd with
          | error e => simp [cmdAdd, hparse, hadd, hmn, hun, hmf, hda, exErr]
          | ok u4 =>
            exfalso
            rcases hfail with h | h | h | h <;> simp [hmn, hun, hmf, hda, exErr] at h

/-- C3: a connection on the daemon's socket is accepted if and only if
the peer credential was resolved and its UID equals 0; a connection from
any non-root peer is closed with a rejection, so no request on it is
ever handed to the request router. -/
theorem accept_iff_root_peer (env : AcceptEnv) (hu : env.acceptUnix = .ok ()) :
    ((pcAccept env).accepted = true ↔
      (env.syscallConn = .ok () ∧ env.rawControl = .ok () ∧ env.peerCred = .ok ⟨0⟩)) ∧
    (∀ u : Nat, u ≠ 0 → env.syscallConn = .ok () → env.rawControl = .ok () →
      env.peerCred = .ok ⟨u⟩ →
      pcAccept env = ⟨false, true, "rejected non-root peer uid=" ++ toString u⟩) := by
  constructor
  · constructor
    · intro hacc
      cases hs : env.syscallConn with
      | error e => simp [pcAccept, hu, hs] at hacc
      | ok u1 =>
        cases hr : env.rawControl with
        | error e => simp [pcAccept, hu, hs, hr] at hacc
        | ok u2 =>
          cases hp : env.peerCred with
          | error e => simp [pcAccept, hu, hs, hr, hp] at hacc
          | ok cred =>
            obtain ⟨cu⟩ := cred
            by_cases hz : cu = 0
            · subst hz
              exact ⟨rfl, rfl, rfl⟩
            · simp [pcAccept, hu, hs, hr, hp, hz] at hacc
    · rintro ⟨hs, hr, hp⟩
      simp [pcAccept, hu, hs, hr, hp]
  · intro u hne hs hr hp
    simp [pcAccept, hu, hs, hr, hp, hne]

/-- C4: daemon detach is idempotent: a filtered port list with zero
matches yields `{ok:true}` with no delete call attempted, a 404 from an
individual delete is folded into success, and against a state-backed
control-plane two successive detaches for the same lifecycle key both
reply `{ok:true}`. -/
theorem handleDel_idempotent (client : NeutronClient) (req : DelRequest)
    (s : CPState) (mk : CreateOpts → Except String Port)
    (sub : String → Except String Subnet) (p : Port)
    (hc : req.containerID ≠ "") (hn : req.networkID ≠ "") :
    (client.listPorts ⟨portName req.containerID, req.networkID⟩ = .ok [] →
      handleDel client req = ⟨⟨200, .delResp ⟨true⟩⟩, []⟩) ∧
    (client.listPorts ⟨portName req.containerID, req.networkID⟩ = .ok [p] →
      client.deletePort p.id = .notFound404 →
      (handleDel client req).reply = ⟨200, .delResp ⟨true⟩⟩) ∧
    ((runDel s mk sub req).2.reply = ⟨200, .delResp ⟨true⟩⟩ ∧
      (runDel (runDel s mk sub req).1 mk sub req).2.reply = ⟨200, .delResp ⟨true⟩⟩) := by
  have hval : ¬(req.containerID = "" ∨ req.networkID = "") := by
    rintro (h | h)
    · exact hc h
    · exact hn h
  refine ⟨?_, ?_, ?_, ?_⟩
  · intro hl
    simp only [handleDel, if_neg hval, hl, delLoop]
  · intro hl hdel
    simp only [handleDel, if_neg hval, hl, delLoop, hdel]
  · exact (runDel_spec s mk sub req hc hn).1
  · exact (runDel_spec _ mk sub req hc hn).1

/-- C5: when the control-plane lists zero matching ports, the daemon's
/check reports `exists:false` with status 200, and the client verify
command turns that into the descriptive failure "neutron port not
found" — not success and not a generic error. -/
theorem check_not_found_behavior (client : NeutronClient) (req : CheckRequest)
    (env : CmdCheckEnv) (conf : PluginConf) (cid : String)
    (hc : req.containerID ≠ "") (hn : req.networkID ≠ "")
    (hlist : client.listPorts ⟨portName req.containerID, req.networkID⟩ = .ok [])
    (hparse : env.parseConf = .ok conf)
    (hcheck : env.daemonCheck ⟨cid, conf.networkID⟩ = .ok ⟨false⟩) :
    handleCheck client req = ⟨⟨200, .checkResp ⟨false⟩⟩, []⟩ ∧
    cmdCheck env cid = .error "neutron port not found" := by
  have hval : ¬(req.containerID = "" ∨ req.networkID = "") := by
    rintro (h | h)
    · exact hc h
    · exact hn h
  constructor
  · simp [handleCheck, if_neg hval, hlist]
  · simp [cmdCheck, hparse, hcheck]

/-- C6: the derived resource name is the fixed "k8s-pod-" prefix
followed by exactly the first 12 characters of the container identity
when its length is at least 12, the full identity unmodified when
shorter, and nothing when the identity is empty; the derivation is
deterministic. -/
theorem portName_spec (cid : String) :
    (12 ≤ cid.length → portName cid = "k8s-pod-" ++ (⟨cid.toList.take 12⟩ : String)) ∧
    (cid.length < 12 → portName cid = "k8s-pod-" ++ cid) ∧
    (cid = "" → portName cid = "k8s-pod-") ∧
    (∀ cid' : String, cid = cid' → portName cid = portName cid') := by
  obtain ⟨l⟩ := cid
  refine ⟨?_, ?_, ?_, ?_⟩
  · intro h12
    by_cases hgt : (String.mk l).length > 12
    · simp only [portName, if_pos hgt]
    · have hl12 : l.length = 12 := le_antisymm (not_lt.mp hgt) h12
      have htake : l.take 12 = l := List.take_of_length_le (le_of_eq hl12)
      simp only [portName, if_neg hgt]
      rw [show (String.mk l).toList = l from rfl, htake]
  · intro hlt
    have hgt : ¬ (String.mk l).length > 12 := not_lt.mpr (le_of_lt hlt)
    simp only [portName, if_neg hgt]
  · intro h
    rw [h]
    decide
  · intro cid' h
    rw [h]

/-- C7: the client detach command returns success for every input and
every collaborator outcome: a configuration parse failure is swallowed
with success returned, a delegate teardown failure is reported as a
warning while the daemon detach is still attempted, and a failure of
the daemon detach call is never the command's result. -/
theorem cmdDel_best_effort (env : CmdDelEnv) (cid : String) :
    (cmdDel env cid).result = .ok () ∧
    (∀ conf, env.parseConf = .ok conf → ∀ u, env.marshalNetConf = .ok u →
      (cmdDel env cid).delegateAttempted = true ∧
      (cmdDel env cid).daemonDelCalls = [⟨cid, conf.networkID⟩] ∧
      ∀ e, env.delegateDel = .error e →
        (cmdDel env cid).warnings =
          ["warning: local OVS delegate delete failed: " ++ e]) := by
  constructor
  · cases hp : env.parseConf with
    | error e => simp [cmdDel, hp]
    | ok conf =>
      cases hm : env.marshalNetConf with
      | error e => simp [cmdDel, hp, hm]
      | ok u => simp [cmdDel, hp, hm]
  · intro conf hp u hm
    refine ⟨by simp [cmdDel, hp, hm], by simp [cmdDel, hp, hm], ?_⟩
    intro e he
    simp [cmdDel, hp, hm, he]

/-- C8: on a successful attach the lease's address is the IP of the
first fixed-address entry of the created port whose subnet matches the
requested subnet; when no entry matches, the reply is still a 200
success whose address is the empty string rather than an error. -/
theorem handleAdd_ip_selection (client : NeutronClient) (req : AddRequest)
    (port : Port) (subnet : Subnet)
    (hc : req.containerID ≠ "") (hn : req.networkID ≠ "") (hs : req.subnetID ≠ "")
    (hcreate : client.createPort ⟨portName req.containerID, req.networkID,
      [⟨req.subnetID, ""⟩]⟩ = .ok port)
    (hget : client.getSubnet req.subnetID = .ok subnet) :
    handleAdd client req = ⟨⟨200, .addResp ⟨port.id, port.macAddress,
      firstMatchingIP port.fixedIPs req.subnetID,
      prefixLengthOf subnet.cidr, subnet.gatewayIP⟩⟩, []⟩ ∧
    (∀ pre m post, port.fixedIPs = pre ++ m :: post →
      (∀ ip ∈ pre, ip.subnetID ≠ req.subnetID) → m.subnetID = req.subnetID →
      firstMatchingIP port.fixedIPs req.subnetID = m.ipAddress) ∧
    ((∀ ip ∈ port.fixedIPs, ip.subnetID ≠ req.subnetID) →
      firstMatchingIP port.fixedIPs req.subnetID = "" ∧
      (handleAdd client req).reply.status = 200) := by
  have hval : ¬(req.containerID = "" ∨ req.networkID = "" ∨ req.subnetID = "") := by
    rintro (h | h | h)
    · exact hc h
    · exact hn h
    · exact hs h
  have hmain : handleAdd client req = ⟨⟨200, .addResp ⟨port.id, port.macAddress,
      firstMatchingIP port.fixedIPs req.subnetID,
      prefixLengthOf subnet.cidr, subnet.gatewayIP⟩⟩, []⟩ := by
    simp only [handleAdd, if_neg hval, hcreate, hget]
  refine ⟨hmain, ?_, ?_⟩
  · intro pre m post hsplit hpre hm
    rw [hsplit]
    exact firstMatchingIP_of_first _ _ _ _ hpre hm
  · intro hnone
    exact ⟨firstMatchingIP_of_none _ _ hnone, by rw [hmain]⟩

/-- C9: serializing then deserializing every request/response envelope
reproduces the original field values exactly (zero values included),
and each envelope serializes to exactly its fixed lower-snake-case wire
field names. -/
theorem api_roundtrip :
    (∀ r : AddRequest, decodeAddRequest (encodeAddRequest r) = some r) ∧
    (∀ r : AddResponse, decodeAddResponse (encodeAddResponse r) = some r) ∧
    (∀ r : DelRequest, decodeDelRequest (encodeDelRequest r) = some r) ∧
    (∀ r : DelResponse, decodeDelResponse (encodeDelResponse r) = some r) ∧
    (∀ r : CheckRequest, decodeCheckRequest (encodeCheckRequest r) = some r) ∧
    (∀ r : CheckResponse, decodeCheckResponse (encodeCheckResponse r) = some r) ∧
    (∀ r : ErrorResponse, decodeErrorResponse (encodeErrorResponse r) = some r) ∧
    (∀ r : AddRequest, (encodeAddRequest r).map Prod.fst =
      ["container_id", "network_id", "subnet_id"]) ∧
    (∀ r : AddResponse, (encodeAddResponse r).map Prod.fst =
      ["port_id", "mac_address", "ip_address", "prefix_length", "gateway_ip"]) ∧
    (∀ r : DelRequest, (encodeDelRequest r).map Prod.fst =
      ["container_id", "network_id"]) ∧
    (∀ r : DelResponse, (encodeDelResponse r).map Prod.fst = ["ok"]) ∧
    (∀ r : CheckRequest, (encodeCheckRequest r).map Prod.fst =
      ["container_id", "network_id"]) ∧
    (∀ r : CheckResponse, (encodeCheckResponse r).map Prod.fst = ["exists"]) ∧
    (∀ r : ErrorResponse, (encodeErrorResponse r).map Prod.fst = ["error"]) :=
  ⟨fun _ => rfl, fun _ => rfl, fun _ => rfl, fun _ => rfl, fun _ => rfl, fun _ => rfl,
   fun _ => rfl, fun _ => rfl, fun _ => rfl, fun _ => rfl, fun _ => rfl, fun _ => rfl,
   fun _ => rfl, fun _ => rfl⟩

/-- C10: the legacy single-binary plugin's port-name derivation
`args.ContainerID[:12]` is not total: on the repository's own test
container identity "ctr-add-1" (9 characters) the slice is out of range
and the command panics, while the daemon's guarded `portName` handles
the same identity; identities of length at least 12 slice fine. -/
theorem legacyPortName_panics_on_short_id :
    legacyPortName "ctr-add-1" = none ∧
    portName "ctr-add-1" = "k8s-pod-ctr-add-1" ∧
    legacyPortName "abcdef1234567890" = some "k8s-pod-abcdef123456" := by
  refine ⟨?_, ?_, ?_⟩ <;> decide

/-! Witness theorems: the claim theorems applied at concrete inputs. -/

/-- Witness for C1 at a concrete failing subnet fetch. -/
theorem handleAdd_subnet_fail_rolls_back_witness :
    handleAdd wClientSubnetFail wAddReq =
      ⟨⟨500, .errResp ⟨"failed to get subnet: boom"⟩⟩, ["p1"]⟩ := by
  have h := handleAdd_subnet_fail_rolls_back wClientSubnetFail wAddReq wPort "boom"
    (by decide) (by decide) (by decide) rfl rfl
  exact h.1.trans (by decide)

/-- Witness for C2 at a concrete failing delegate invocation. -/
theorem cmdAdd_compensates_on_late_failure_witness :
    exErr (cmdAdd wCmdAddEnv "abcdef1234567890").result = true ∧
    (cmdAdd wCmdAddEnv "abcdef1234567890").delCalls =
      [⟨"abcdef1234567890", "net-1"⟩] := by
  have h := cmdAdd_compensates_on_late_failure wCmdAddEnv "abcdef1234567890"
    wConf wAddResp rfl rfl (Or.inr (Or.inr (Or.inr rfl)))
  exact ⟨h.1, h.2.1.trans (by decide)⟩

/-- Witness for C3 at a concrete root and a concrete non-root peer. -/
theorem accept_iff_root_peer_witness :
    (pcAccept wAcceptRoot).accepted = true ∧
    pcAccept wAcceptNonRoot = ⟨false, true, "rejected non-root peer uid=7"⟩ := by
  constructor
  · exact ((accept_iff_root_peer wAcceptRoot rfl).1).mpr ⟨rfl, rfl, rfl⟩
  · exact ((accept_iff_root_peer wAcceptNonRoot rfl).2 7 (by decide) rfl rfl rfl).trans
      (by decide)

/-- Witness for C4: zero-match detach, a 404-folding detach, and the
first of two successive detaches, all at concrete inputs. -/
theorem handleDel_idempotent_witness :
    handleDel wClientEmpty wDelReq = ⟨⟨200, .delResp ⟨true⟩⟩, []⟩ ∧
    (handleDel wClient404 wDelReq).reply = ⟨200, .delResp ⟨true⟩⟩ ∧
    (runDel wState wMk wSub wDelReq).2.reply = ⟨200, .delResp ⟨true⟩⟩ := by
  have h := handleDel_idempotent wClientEmpty wDelReq wState wMk wSub wPort
    (by decide) (by decide)
  have h2 := handleDel_idempotent wClient404 wDelReq wState wMk wSub wPort
    (by decide) (by decide)
  exact ⟨h.1 rfl, h2.2.1 rfl rfl, h.2.2.1⟩

/-- Witness for C5 at a concrete empty port list. -/
theorem check_not_found_behavior_witness :
    handleCheck wClientEmpty wCheckReq = ⟨⟨200, .checkResp ⟨false⟩⟩, []⟩ ∧
    cmdCheck wCmdCheckEnv "abcdef1234567890" = .error "neutron port not found" :=
  check_not_found_behavior wClientEmpty wCheckReq wCmdCheckEnv wConf
    "abcdef1234567890" (by decide) (by decide) rfl rfl rfl

/-- Witness for C6 at a 16-character and a 3-character identity. -/
theorem portName_spec_witness :
    portName "abcdefghijklmnop" = "k8s-pod-abcdefghijkl" ∧
    portName "abc" = "k8s-pod-abc" := by
  constructor
  · exact ((portName_spec "abcdefghijklmnop").1 (by decide)).trans (by decide)
  · exact (portName_spec "abc").2.1 (by decide)

/-- Witness for C7 at a run whose delegate and daemon calls both fail. -/
theorem cmdDel_best_effort_witness :
    (cmdDel wCmdDelEnv "abcdef1234567890").result = .ok () ∧
    (cmdDel wCmdDelEnv "abcdef1234567890").daemonDelCalls =
      [⟨"abcdef1234567890", "net-1"⟩] ∧
    (cmdDel wCmdDelEnv "abcdef1234567890").warnings =
      ["warning: local OVS delegate delete failed: veth teardown failed"] := by
  have h := cmdDel_best_effort wCmdDelEnv "abcdef1234567890"
  have h2 := h.2 wConf rfl () rfl
  exact ⟨h.1, h2.2.1.trans (by decide),
    (h2.2.2 "veth teardown failed" rfl).trans (by decide)⟩

/-- Witness for C8 at the end-to-end scenario's concrete port and subnet. -/
theorem handleAdd_ip_selection_witness :
    handleAdd wClientOk wAddReq = ⟨⟨200, .addResp
      ⟨"p1", "fa:16:3e:aa:bb:cc", "10.0.0.5", "24", "10.0.0.1"⟩⟩, []⟩ := by
  have h := handleAdd_ip_selection wClientOk wAddReq wPort wSubnet
    (by decide) (by decide) (by decide) rfl rfl
  exact h.1.trans (by decide)

end OpenStackPort
